import Mathlib

/-! Shallow embedding of the KDUIDManager repository (KDUID.ts and
KDUIDManager.ts) and verification of its specification claims.

Conventions of the embedding:
* JavaScript 32-bit unsigned integers are `Nat`; `x & 0xff` is `x % 256`,
  `(x >> k) & 0xff` is `x / 2 ^ k % 256` (for the shift amounts 8, 16, 24
  used by the source these agree with JS signed-shift semantics on every
  unsigned 32-bit input), `| 0x40` and `| 0x80` are `Nat.lor`.
* The random source (`window.crypto.getRandomValues` / `Math.random`) is
  modelled by an explicit list of candidate draws threaded through the
  operations; the unbounded retry loop in `generate` becomes structural
  recursion on that list, returning `none` when the supplied draws are
  exhausted (the real loop would keep drawing).
* JS `Map` (insertion ordered, reference-keyed) is an association list
  `List (α × String)` with `DecidableEq α` standing for reference identity.
* Fallible operations return `Option`/sum results instead of throwing.
-/

set_option maxRecDepth 40000

/-- One draw of the random source: four 32-bit unsigned values, as produced
by `getRandomValues` in KDUID.ts. -/
structure RandVals where
  r0 : Nat
  r1 : Nat
  r2 : Nat
  r3 : Nat
deriving DecidableEq, Repr

/-- The sixteen lowercase hexadecimal digit characters, the output alphabet
of JS `Number.prototype.toString(16)` (`Nat.digitChar` renders the same
digits `0`-`9` then `a`-`f`). -/
def hexChars : List Char := (List.range 16).map Nat.digitChar

/-- The `n`-th lowercase hexadecimal digit (for `n < 16`). -/
def hexChar (n : Nat) : Char := hexChars.getD n '0'

/-- JS `i.toString(16)` restricted to `i < 256` (the only inputs the source
feeds it): one hex digit below 16, two hex digits otherwise. -/
def natToHexLt256 (i : Nat) : String :=
  if i < 16 then String.mk [hexChar i] else String.mk [hexChar (i / 16), hexChar (i % 16)]

/-- KDUID.ts `lookup` table: entry `i` is `(i < 16 ? '0' : '') + i.toString(16)`,
i.e. the two-digit lowercase hex rendering of a byte. -/
def lookup (i : Nat) : String :=
  (if i < 16 then "0" else "") ++ natToHexLt256 i

/-- KDUID.ts `formatUid`: format four 32-bit values into the RFC4122 v4
layout. Each `lookup` argument mirrors one element of the source's `v`
array; `s0`–`s4` mirror the source's `s` groups. -/
def formatUid (values : RandVals) : String :=
  let v0 := lookup (values.r0 % 256)
  let v1 := lookup (values.r0 / 2 ^ 8 % 256)
  let v2 := lookup (values.r0 / 2 ^ 16 % 256)
  let v3 := lookup (values.r0 / 2 ^ 24 % 256)
  let v4 := lookup (values.r1 % 256)
  let v5 := lookup (values.r1 / 2 ^ 8 % 256)
  let v6 := lookup ((values.r1 / 2 ^ 16 % 16) ||| 0x40)
  let v7 := lookup (values.r1 / 2 ^ 24 % 256)
  let v8 := lookup ((values.r2 % 64) ||| 0x80)
  let v9 := lookup (values.r2 / 2 ^ 8 % 256)
  let v10 := lookup (values.r2 / 2 ^ 16 % 256)
  let v11 := lookup (values.r2 / 2 ^ 24 % 256)
  let v12 := lookup (values.r3 % 256)
  let v13 := lookup (values.r3 / 2 ^ 8 % 256)
  let v14 := lookup (values.r3 / 2 ^ 16 % 256)
  let v15 := lookup (values.r3 / 2 ^ 24 % 256)
  let s0 := v0 ++ v1 ++ v2 ++ v3
  let s1 := v4 ++ v5
  let s2 := v6 ++ v7
  let s3 := v8 ++ v9
  let s4 := v10 ++ v11 ++ v12 ++ v13 ++ v14 ++ v15
  s0 ++ "-" ++ s1 ++ "-" ++ s2 ++ "-" ++ s3 ++ "-" ++ s4

/-- Character class `[0-9A-F]` of the source regex under its `i` flag:
hexadecimal digit of either case. -/
def isHexI (c : Char) : Bool :=
  ('0' ≤ c && c ≤ '9') || ('a' ≤ c && c ≤ 'f') || ('A' ≤ c && c ≤ 'F')

/-- Character class `[89AB]` of the source regex under its `i` flag. -/
def isVariantI (c : Char) : Bool :=
  (['8', '9', 'A', 'B', 'a', 'b']).contains c

/-- Consume exactly `n` hexadecimal characters from the front of a character
list, returning the rest, or `none` on mismatch. -/
def takeHex : Nat → List Char → Option (List Char)
  | 0, cs => some cs
  | _ + 1, [] => none
  | n + 1, c :: cs => if isHexI c then takeHex n cs else none

/-- Consume one expected literal character. -/
def expectChar (c : Char) : List Char → Option (List Char)
  | [] => none
  | x :: xs => if x = c then some xs else none

/-- Consume one variant character (`[89AB]`, case-insensitive). -/
def expectVariant : List Char → Option (List Char)
  | [] => none
  | x :: xs => if isVariantI x then some xs else none

/-- Anchored matcher for the source regex
`^[0-9A-F]{8}-[0-9A-F]{4}-4[0-9A-F]{3}-[89AB][0-9A-F]{3}-[0-9A-F]{12}$` with
the `i` flag, as a left-to-right consumption of the character list. -/
def v4MatchL (cs : List Char) : Bool :=
  match ((((((((((takeHex 8 cs).bind (expectChar '-')).bind (takeHex 4)).bind
      (expectChar '-')).bind (expectChar '4')).bind (takeHex 3)).bind
      (expectChar '-')).bind expectVariant).bind (takeHex 3)).bind
      (expectChar '-')).bind (takeHex 12) with
  | some [] => true
  | _ => false

/-- Model of `re.test(uid)` for the v4 regex of KDUID.ts `validator`. -/
def v4Match (s : String) : Bool := v4MatchL s.data

/-- KDUID.ts `validator`: accepts a single string (`Sum.inl`) or an array of
strings (`Sum.inr`, the `Array.isArray` branch) and filters by the v4 regex. -/
def validator (uuids : String ⊕ List String) : List String :=
  let arr := match uuids with
    | Sum.inl s => [s]
    | Sum.inr l => l
  arr.filter v4Match

/-- KDUID.ts `generate`: repeatedly draw and format candidates until one is
absent from `generated`, then append it. The candidate draws are supplied
explicitly; `none` means the supplied draws were exhausted (the source would
keep looping). Returns the identifier, the new `generated` list, and the
unconsumed draws. -/
def generate (generated : List String) :
    List RandVals → Option (String × List String × List RandVals)
  | [] => none
  | c :: rest =>
    let uid := formatUid c
    if generated.contains uid then generate generated rest
    else some (uid, generated ++ [uid], rest)

/-- KDUID.ts `setExisting`: validate every candidate; on full success replace
the `generated` list wholesale and report `true`, otherwise keep the previous
list and report `false`. Returns `(returnValue, newGeneratedList)`. -/
def setExisting (generated : List String) (uuids : List String) : Bool × List String :=
  let validated := validator (Sum.inr uuids)
  if validated.length = uuids.length then (true, uuids) else (false, generated)


/-- Manager state: the association `Map` (insertion-ordered association
list, keys compared by identity) together with the `generated` list of the
manager's own `KDUID` generator instance. -/
structure Mgr (α : Type) where
  map : List (α × String)
  generated : List String
deriving DecidableEq, Repr

/-- The `KDUIDManager()` fresh state: empty map, generator constructed with no
seed list. -/
def freshMgr {α : Type} : Mgr α := ⟨[], []⟩

/-- JS `Map.prototype.has`. -/
def mapHas {α : Type} [DecidableEq α] (m : List (α × String)) (k : α) : Bool :=
  m.any (fun p => p.1 = k)

/-- JS `Map.prototype.set`: update the value in place if the key is present
(keeping its position), otherwise append a new entry. -/
def mapSet {α : Type} [DecidableEq α] (m : List (α × String)) (k : α) (v : String) :
    List (α × String) :=
  if mapHas m k then m.map (fun p => if p.1 = k then (k, v) else p) else m ++ [(k, v)]

/-- JS `Map.prototype.delete`: remove the entry for `k` (keys are unique in
every map built by the manager, so filtering removes at most one entry). -/
def mapDelete {α : Type} [DecidableEq α] (m : List (α × String)) (k : α) :
    List (α × String) :=
  m.filter (fun p => ¬ p.1 = k)

/-- Model of `uids()`: snapshot of the map's values in insertion order. -/
def uidsM {α : Type} (st : Mgr α) : List String := st.map.map (fun p => p.2)

/-- Model of `keys()`: snapshot of the map's keys in insertion order. -/
def keysM {α : Type} (st : Mgr α) : List α := st.map.map (fun p => p.1)

/-- Model of `entries()`: snapshot of the map's entries. -/
def entriesM {α : Type} (st : Mgr α) : List (α × String) := st.map

/-- KDUIDManager.ts `updateGenerator`: push the full current value list into
the generator's `setExisting`; returns its boolean result and the new state. -/
def updateGenerator {α : Type} (st : Mgr α) : Bool × Mgr α :=
  let r := setExisting st.generated (uidsM st)
  (r.1, ⟨st.map, r.2⟩)

/-- Model of `generateUIDFor`: generate a fresh identifier (consuming random draws),
delete any existing association for `target`, then set `target → uid`.
Note the source performs no `updateGenerator` call here; `generate` itself
appended the new identifier to the generator's list. -/
def generateUIDFor {α : Type} [DecidableEq α] (st : Mgr α) (target : α)
    (cands : List RandVals) : Option (String × Mgr α × List RandVals) :=
  match generate st.generated cands with
  | none => none
  | some (uid, g, rest) =>
    let m1 := if mapHas st.map target then mapDelete st.map target else st.map
    some (uid, ⟨mapSet m1 target uid, g⟩, rest)

/-- Model of `hasUIDFor`: membership test on the map keys. -/
def hasUIDFor {α : Type} [DecidableEq α] (st : Mgr α) (target : α) : Bool :=
  mapHas st.map target

/-- Model of `getUIDFor`: `map.get(target)`; `none` models `undefined`. -/
def getUIDFor {α : Type} [DecidableEq α] (st : Mgr α) (target : α) : Option String :=
  (st.map.find? (fun p => p.1 = target)).map (fun p => p.2)

/-- Model of `hasKeyFor`: linear scan over the values, exact (`===`) string
comparison, `true` on first hit. -/
def hasKeyFor {α : Type} (st : Mgr α) (uid : String) : Bool :=
  (uidsM st).any (fun v => v = uid)

/-- Model of `getKeyFor`: linear scan over the entries, exact (`===`) string
comparison, first matching key; `none` models the `undefined` fall-through. -/
def getKeyFor {α : Type} (st : Mgr α) (uid : String) : Option α :=
  (st.map.find? (fun p => p.2 = uid)).map (fun p => p.1)

/-- Result record of a successful `setEntries`. -/
structure SEReport (α : Type) where
  changed : List (α × String)
  invalid : List (α × String)
deriving DecidableEq, Repr

/-- JS truthiness of the array returned by `validate`: an object (array) is
truthy regardless of emptiness, so the source's `!isValidUID` test is always
false and this function is constantly `true`. -/
def jsTruthy (_ : List String) : Bool := true

/-- Dynamic input to `setEntries`: either a non-array value, or an array
whose elements are proper pairs (`some`) or values whose destructuring
`const [key, uid] = entry` throws (`none`). -/
inductive JsEntries (α : Type) where
  | notArray
  | arr (l : List (Option (α × String)))

/-- Outcome of the `entries.forEach` loop body of `setEntries`: either an
exception was raised part-way (state at the throw retained), or the loop
finished with the accumulated `changed`/`invalid` lists. -/
inductive SEOut (α : Type) where
  | thrown (st : Mgr α)
  | done (st : Mgr α) (changed invalid : List (α × String)) (cands : List RandVals)

/-- The `entries.forEach` loop of `setEntries`, one entry at a time.
`isValidUID` is the array returned by `validate`; the source tests its JS
truthiness (`!isValidUID`), so the `invalid` branch is unreachable. A
duplicate of a value already inserted in this run goes through the nested
`generateUIDFor` (consuming random draws); outer `none` means those draws
ran out. -/
def seLoop {α : Type} [DecidableEq α] (st : Mgr α)
    (changed invalid : List (α × String)) (cands : List RandVals) :
    List (Option (α × String)) → Option (SEOut α)
  | [] => some (SEOut.done st changed invalid cands)
  | none :: _ => some (SEOut.thrown st)
  | some (key, uid) :: rest =>
    let isValidUID := validator (Sum.inl uid)
    if jsTruthy isValidUID then
      let uidExists := (uidsM st).contains uid
      if uidExists then
        match generateUIDFor st key cands with
        | none => none
        | some (nuid, st1, cands1) => seLoop st1 (changed ++ [(key, nuid)]) invalid cands1 rest
      else seLoop ⟨mapSet st.map key uid, st.generated⟩ changed invalid cands rest
    else seLoop st changed (invalid ++ [(key, uid)]) cands rest

/-- Model of `setEntries` on an arbitrary (dynamically typed) argument. Result
`some (none, st)` is the `false` sentinel (non-array input, or an exception
caught at the `try`/`catch` boundary); `some (some report, st)` is the
success report; outer `none` means the modelled random draws ran out (the
source would keep drawing). The map is cleared before the loop runs, and a
caught exception leaves the partially rebuilt map in place. -/
def setEntriesDyn {α : Type} [DecidableEq α] (st : Mgr α) (entries : JsEntries α)
    (cands : List RandVals) : Option (Option (SEReport α) × Mgr α) :=
  match entries with
  | JsEntries.notArray => some (none, st)
  | JsEntries.arr l =>
    match seLoop ⟨[], st.generated⟩ [] [] cands l with
    | none => none
    | some (SEOut.thrown st1) => some (none, st1)
    | some (SEOut.done st1 changed invalid _) =>
      some (some ⟨changed, invalid⟩, (updateGenerator st1).2)

/-- Model of `setEntries` on a proper array of proper pairs. -/
def setEntries {α : Type} [DecidableEq α] (st : Mgr α) (entries : List (α × String))
    (cands : List RandVals) : Option (Option (SEReport α) × Mgr α) :=
  setEntriesDyn st (JsEntries.arr (entries.map some)) cands

/-- Model of `deleteEntryForUID`: scan the entries for the first exact value match,
delete that entry's key, resynchronize the generator, return `true`; `false`
with the state unchanged when no value matches. -/
def deleteEntryForUID {α : Type} [DecidableEq α] (st : Mgr α) (uid : String) :
    Bool × Mgr α :=
  match st.map.find? (fun p => p.2 = uid) with
  | none => (false, st)
  | some p => (true, (updateGenerator ⟨mapDelete st.map p.1, st.generated⟩).2)

/-- Model of `deleteEntryForKey`: delete the entry for `target` when present,
resynchronize the generator, return `true`; otherwise `false`. -/
def deleteEntryForKey {α : Type} [DecidableEq α] (st : Mgr α) (target : α) :
    Bool × Mgr α :=
  if mapHas st.map target then
    (true, (updateGenerator ⟨mapDelete st.map target, st.generated⟩).2)
  else (false, st)

/-- Model of `reset`: clear the map and resynchronize the generator. -/
def reset {α : Type} (st : Mgr α) : Mgr α :=
  (updateGenerator ⟨[], st.generated⟩).2

/-- Output alphabet claimed for the generator: lowercase hex digits and the
hyphen (formalizes "lowercase" in the specification). -/
def isLowerOut (c : Char) : Bool := hexChars.contains c || c = '-'

/-- A sequence of consecutive `generate` calls on one generator instance
(no intervening `setExisting`), each with its own supply of random draws.
Returns the list of outputs and the final `generated` list. -/
def genRun (generated : List String) :
    List (List RandVals) → Option (List String × List String)
  | [] => some ([], generated)
  | cs :: rest =>
    (generate generated cs).bind fun r =>
      (genRun r.2.1 rest).map fun pr => (r.1 :: pr.1, pr.2)

lemma data_append (s t : String) : (s ++ t).data = s.data ++ t.data := rfl

lemma dash_data : ("-" : String).data = ['-'] := rfl

lemma lookup_fin_data : ∀ b : Fin 256,
    (lookup b.val).data = [hexChar (b.val / 16), hexChar (b.val % 16)] := by decide

lemma isHexI_hexChar_fin : ∀ b : Fin 16, isHexI (hexChar b.val) = true := by decide

lemma hexChars_contains_fin : ∀ b : Fin 16, hexChars.contains (hexChar b.val) = true := by
  decide

lemma ver_fin_data : ∀ b : Fin 16,
    (lookup (b.val ||| 64)).data = ['4', hexChar b.val] := by decide

lemma var_fin_data : ∀ b : Fin 64,
    (lookup (b.val ||| 128)).data = [hexChar (8 + b.val / 16), hexChar (b.val % 16)] := by
  decide

lemma var_fin_head : ∀ b : Fin 64, isVariantI (hexChar (8 + b.val / 16)) = true := by decide

lemma lookup_mod256_data (x : Nat) :
    (lookup (x % 256)).data = [hexChar (x % 256 / 16), hexChar (x % 256 % 16)] :=
  lookup_fin_data ⟨x % 256, Nat.mod_lt _ (by omega)⟩

lemma isHexI_hexChar_lt {y : Nat} (h : y < 16) : isHexI (hexChar y) = true :=
  isHexI_hexChar_fin ⟨y, h⟩

lemma hexChars_contains_lt {y : Nat} (h : y < 16) : hexChars.contains (hexChar y) = true :=
  hexChars_contains_fin ⟨y, h⟩

lemma ver_data (x : Nat) : (lookup ((x % 16) ||| 64)).data = ['4', hexChar (x % 16)] :=
  ver_fin_data ⟨x % 16, Nat.mod_lt _ (by omega)⟩

lemma var_data (x : Nat) :
    (lookup ((x % 64) ||| 128)).data = [hexChar (8 + x % 64 / 16), hexChar (x % 64 % 16)] :=
  var_fin_data ⟨x % 64, Nat.mod_lt _ (by omega)⟩

lemma var_head (x : Nat) : isVariantI (hexChar (8 + x % 64 / 16)) = true :=
  var_fin_head ⟨x % 64, Nat.mod_lt _ (by omega)⟩

lemma takeHex_consHex {c : Char} (h : isHexI c = true) (n : Nat) (rest : List Char) :
    takeHex (n + 1) (c :: rest) = takeHex n rest := by
  simp [takeHex, h]

lemma takeHexPair256 (x n : Nat) (rest : List Char) :
    takeHex (n + 2) ((lookup (x % 256)).data ++ rest) = takeHex n rest := by
  rw [lookup_mod256_data]
  have h1 : isHexI (hexChar (x % 256 / 16)) = true := isHexI_hexChar_lt (by omega)
  have h2 : isHexI (hexChar (x % 256 % 16)) = true := isHexI_hexChar_lt (by omega)
  simp [takeHex, h1, h2]

lemma takeHex_zero (rest : List Char) : takeHex 0 rest = some rest := rfl


lemma hex_div256 (x : Nat) : isHexI (hexChar (x % 256 / 16)) = true :=
  isHexI_hexChar_lt (by omega)

lemma hex_mod16 (x : Nat) : isHexI (hexChar (x % 16)) = true :=
  isHexI_hexChar_lt (Nat.mod_lt _ (by omega))

lemma expectChar_cons_self (c : Char) (rest : List Char) :
    expectChar c (c :: rest) = some rest := by
  simp [expectChar]

lemma expectVariant_cons {x : Char} (h : isVariantI x = true) (rest : List Char) :
    expectVariant (x :: rest) = some rest := by
  simp [expectVariant, h]

/-- Every string produced by `formatUid` passes the v4 matcher. -/
lemma v4MatchL_formatUid (a b c d : Nat) :
    v4MatchL (formatUid ⟨a, b, c, d⟩).data = true := by
  simp only [formatUid, data_append, dash_data]
  rw [ver_data (b / 2 ^ 16), var_data c]
  simp only [lookup_mod256_data, List.cons_append, List.append_assoc,
    List.singleton_append, List.nil_append]
  simp only [v4MatchL, takeHex_consHex, hex_div256, hex_mod16, var_head,
    expectChar_cons_self, expectVariant_cons, takeHex_zero, Option.some_bind]

lemma lower_hex_div256 (x : Nat) : isLowerOut (hexChar (x % 256 / 16)) = true := by
  have h := hexChars_contains_lt (show x % 256 / 16 < 16 by omega)
  simp only [isLowerOut, h, Bool.true_or]

lemma lower_hex_mod16 (x : Nat) : isLowerOut (hexChar (x % 16)) = true := by
  have h := hexChars_contains_lt (Nat.mod_lt x (show 0 < 16 by omega))
  simp only [isLowerOut, h, Bool.true_or]

lemma lower_var_head (x : Nat) : isLowerOut (hexChar (8 + x % 64 / 16)) = true := by
  have h := hexChars_contains_lt (show 8 + x % 64 / 16 < 16 by omega)
  simp only [isLowerOut, h, Bool.true_or]

lemma lower_four : isLowerOut '4' = true := by decide

lemma lower_dash : isLowerOut '-' = true := by decide

/-- Every string produced by `formatUid` uses only lowercase hex digits and
hyphens. -/
lemma formatUid_lower (a b c d : Nat) :
    (formatUid ⟨a, b, c, d⟩).data.all isLowerOut = true := by
  simp only [formatUid, data_append, dash_data]
  rw [ver_data (b / 2 ^ 16), var_data c]
  simp only [lookup_mod256_data, List.cons_append, List.append_assoc,
    List.singleton_append, List.nil_append]
  simp only [List.all_cons, List.all_append, List.all_nil, Bool.and_eq_true,
    lower_hex_div256, lower_hex_mod16, lower_var_head, lower_four, lower_dash,
    and_true, true_and, and_self]

/-- Core property of `generate`: a successful call returns an identifier that
is a `formatUid` image of one of the supplied draws, was absent from the
`generated` list, and is appended to it. -/
lemma generate_spec {g : List String} {cands : List RandVals} {u : String}
    {g' : List String} {c' : List RandVals}
    (h : generate g cands = some (u, g', c')) :
    u ∉ g ∧ g' = g ++ [u] ∧ ∃ vals, u = formatUid vals := by
  induction cands with
  | nil => simp [generate] at h
  | cons c rest ih =>
    simp only [generate] at h
    by_cases hc : formatUid c ∈ g
    · rw [if_pos (by simpa using hc)] at h
      exact ih h
    · rw [if_neg (by simpa using hc)] at h
      injection h with h'
      injection h' with h1 h23
      injection h23 with h2 h3
      subst h1 h2 h3
      exact ⟨hc, rfl, ⟨c, rfl⟩⟩

lemma filter_length_eq_iff {p : String → Bool} {l : List String} :
    ((l.filter p).length = l.length) ↔ l.all p = true := by
  induction l with
  | nil => simp
  | cons a t ih =>
    by_cases h : p a = true
    · simp [h, ih]
    · rw [Bool.not_eq_true] at h
      have hle := List.length_filter_le p t
      simp [h]
      omega

/-- Successful `genRun`: outputs are fresh, pairwise distinct, and appended
to the seen-set in order. -/
lemma genRun_spec {g : List String} {css : List (List RandVals)}
    {us gf : List String} (h : genRun g css = some (us, gf)) :
    us.Nodup ∧ (∀ u ∈ us, u ∉ g) ∧ gf = g ++ us := by
  induction css generalizing g us gf with
  | nil =>
    simp only [genRun, Option.some.injEq, Prod.mk.injEq] at h
    obtain ⟨rfl, rfl⟩ := h
    simp
  | cons cs rest ih =>
    simp only [genRun] at h
    cases hg : generate g cs with
    | none => rw [hg] at h; simp at h
    | some r =>
      obtain ⟨u, g1, c1⟩ := r
      rw [hg] at h
      rw [Option.some_bind] at h
      cases hr : genRun g1 rest with
      | none => rw [hr] at h; simp at h
      | some pr =>
        obtain ⟨us1, gf1⟩ := pr
        rw [hr] at h
        simp only [Option.map_some', Option.some.injEq, Prod.mk.injEq] at h
        obtain ⟨rfl, rfl⟩ := h
        obtain ⟨hu1, hu2, -⟩ := generate_spec hg
        obtain ⟨ih1, ih2, ih3⟩ := ih hr
        subst hu2
        refine ⟨?_, ?_, ?_⟩
        · refine List.nodup_cons.mpr ⟨fun hmem => ?_, ih1⟩
          exact (ih2 u hmem) (by simp)
        · intro v hv
          rcases List.mem_cons.mp hv with rfl | hv1
          · exact hu1
          · intro hvg
            exact (ih2 v hv1) (by simp [hvg])
        · simp [ih3]

/-- C4 (amended): within any run of consecutive `generate()` calls with no
intervening `setExisting`, the outputs are pairwise distinct, none of them
repeats an identifier already in the seen-set (in particular none equals a
pre-seeded identifier supplied at construction), and all outputs are
appended to the seen-set in order. -/
theorem c4_generate_no_duplicates (g : List String) (l : List (List RandVals))
    (us gf : List String) (h : genRun g l = some (us, gf)) :
    us.Nodup ∧ (∀ u ∈ us, u ∉ g) ∧ gf = g ++ us :=
  genRun_spec h

theorem c4_generate_no_duplicates_witness :
    genRun ["00000000-0000-4000-8000-000000000000"]
        [[⟨0, 0, 0, 0⟩, ⟨1, 0, 0, 0⟩], [⟨2, 0, 0, 0⟩]] =
      some (["01000000-0000-4000-8000-000000000000",
             "02000000-0000-4000-8000-000000000000"],
            ["00000000-0000-4000-8000-000000000000",
             "01000000-0000-4000-8000-000000000000",
             "02000000-0000-4000-8000-000000000000"]) ∧
    (["01000000-0000-4000-8000-000000000000",
      "02000000-0000-4000-8000-000000000000"] : List String).Nodup :=
  ⟨by decide,
   (c4_generate_no_duplicates ["00000000-0000-4000-8000-000000000000"]
      [[⟨0, 0, 0, 0⟩, ⟨1, 0, 0, 0⟩], [⟨2, 0, 0, 0⟩]]
      ["01000000-0000-4000-8000-000000000000",
       "02000000-0000-4000-8000-000000000000"]
      ["00000000-0000-4000-8000-000000000000",
       "01000000-0000-4000-8000-000000000000",
       "02000000-0000-4000-8000-000000000000"] (by decide)).1⟩

/-- C4 counterexample: over an instance's lifetime with `setExisting`
interleaved, two `generate()` calls can return the same string. With the
all-zero draw, `generate` on a fresh instance returns the zero identifier;
`setExisting []` then succeeds and empties the seen-set; a second `generate`
from the resulting empty state returns the very same identifier again. -/
theorem c4_counterexample :
    generate [] [⟨0, 0, 0, 0⟩] =
      some ("00000000-0000-4000-8000-000000000000",
            ["00000000-0000-4000-8000-000000000000"], []) ∧
    setExisting ["00000000-0000-4000-8000-000000000000"] [] = (true, []) ∧
    generate [] [⟨0, 0, 0, 0⟩] =
      some ("00000000-0000-4000-8000-000000000000",
            ["00000000-0000-4000-8000-000000000000"], []) :=
  ⟨by decide, by decide, by decide⟩

/-- C5: every string returned by `generate()` matches the v4 format (five
hyphen-separated hex groups of lengths 8, 4, 4, 4, 12; group 3 starting
with `4`; group 4 starting with `8`, `9`, `a` or `b`) and consists only of
lowercase hex digits and hyphens. -/
theorem c5_generate_v4_lowercase (g : List String) (l : List RandVals)
    (u : String) (g' : List String) (c' : List RandVals)
    (h : generate g l = some (u, g', c')) :
    v4Match u = true ∧ u.data.all isLowerOut = true := by
  obtain ⟨-, -, vals, rfl⟩ := generate_spec h
  obtain ⟨a, b, c, d⟩ := vals
  exact ⟨v4MatchL_formatUid a b c d, formatUid_lower a b c d⟩

theorem c5_generate_v4_lowercase_witness :
    v4Match "00000000-0000-4000-8000-000000000000" = true ∧
    ("00000000-0000-4000-8000-000000000000" : String).data.all isLowerOut = true :=
  c5_generate_v4_lowercase [] [⟨0, 0, 0, 0⟩]
    "00000000-0000-4000-8000-000000000000"
    ["00000000-0000-4000-8000-000000000000"] [] (by decide)

/-- C6: `validate` on an array returns exactly the sublist of inputs that
match the v4 regex (order preserved, no deduplication); on a single string
it returns a one-element list containing exactly that string when it is
valid, and the empty list (not an error) when it is not. -/
theorem c6_validate_filters_v4 (l : List String) (s : String) :
    validator (Sum.inr l) = l.filter v4Match ∧
    List.Sublist (validator (Sum.inr l)) l ∧
    validator (Sum.inl s) = (if v4Match s = true then [s] else []) := by
  refine ⟨rfl, List.filter_sublist l, ?_⟩
  by_cases h : v4Match s = true
  · simp [validator, h]
  · rw [Bool.not_eq_true] at h
    simp [validator, h]

/-- C7: `setExisting` succeeds exactly when every candidate passes v4
validation; on success the seen-set is replaced wholesale by the supplied
list (duplicates included, verbatim), and on failure the previous seen-set
is kept completely unchanged. -/
theorem c7_setExisting_all_or_nothing (g l : List String) :
    (setExisting g l).1 = l.all v4Match ∧
    (setExisting g l).2 = (if l.all v4Match = true then l else g) := by
  by_cases h : (l.filter v4Match).length = l.length
  · have ha := filter_length_eq_iff.mp h
    simp [setExisting, validator, h, ha]
  · have ha : l.all v4Match = false :=
      Bool.eq_false_iff.mpr (fun hh => h (filter_length_eq_iff.mpr hh))
    simp [setExisting, validator, h, ha]

/-- C1 (code bug): `setEntries` never routes a pair into `invalid`. The
source tests `!isValidUID` where `isValidUID` is the array returned by
`validate`; an array is always truthy in JS, so an invalid identifier is
inserted as given and the returned report has `invalid = []`. Concretely:
from a fresh manager, `setEntries([[0, "bad"]])` returns the report
`changed = [], invalid = []` and leaves `(0, "bad")` in the map, although
`"bad"` fails v4 validation. -/
theorem c1_setEntries_inserts_invalid :
    v4Match "bad" = false ∧
    validator (Sum.inl "bad") = [] ∧
    setEntries (freshMgr : Mgr Nat) [(0, "bad")] [] =
      some (some ⟨[], []⟩, ⟨[(0, "bad")], []⟩) :=
  ⟨by decide, by decide, by decide⟩

/-- C2 (code bug): a state whose map holds a value that is not a valid v4
identifier is reachable — the invariant "every stored value is a valid
Identifier" fails. One `setEntries` call on a fresh manager reaches a state
whose single map value `"bad"` fails validation (see `c1` for the cause). -/
theorem c2_invalid_value_in_map :
    setEntries (freshMgr : Mgr Nat) [(0, "bad")] [] =
      some (some ⟨[], []⟩, ⟨[(0, "bad")], []⟩) ∧
    "bad" ∈ uidsM (⟨[(0, "bad")], []⟩ : Mgr Nat) ∧
    v4Match "bad" = false :=
  ⟨by decide, by decide, by decide⟩

/-- C3 counterexample: `generateUIDFor` performs no resynchronization. Two
`generateUIDFor` calls for the same entity from a fresh manager leave the
generator's seen-set `[u1, u2]` while the map's value list is `[u2]`, so
the seen-set does not equal the current value list after this structural
mutation. -/
theorem c3_counterexample :
    generateUIDFor (freshMgr : Mgr Nat) 0 [⟨0, 0, 0, 0⟩] =
      some ("00000000-0000-4000-8000-000000000000",
            ⟨[(0, "00000000-0000-4000-8000-000000000000")],
             ["00000000-0000-4000-8000-000000000000"]⟩, []) ∧
    generateUIDFor
        (⟨[(0, "00000000-0000-4000-8000-000000000000")],
          ["00000000-0000-4000-8000-000000000000"]⟩ : Mgr Nat) 0 [⟨1, 0, 0, 0⟩] =
      some ("01000000-0000-4000-8000-000000000000",
            ⟨[(0, "01000000-0000-4000-8000-000000000000")],
             ["00000000-0000-4000-8000-000000000000",
              "01000000-0000-4000-8000-000000000000"]⟩, []) ∧
    ¬ ((⟨[(0, "01000000-0000-4000-8000-000000000000")],
         ["00000000-0000-4000-8000-000000000000",
          "01000000-0000-4000-8000-000000000000"]⟩ : Mgr Nat).generated =
       uidsM (⟨[(0, "01000000-0000-4000-8000-000000000000")],
               ["00000000-0000-4000-8000-000000000000",
                "01000000-0000-4000-8000-000000000000"]⟩ : Mgr Nat)) :=
  ⟨by decide, by decide, by decide⟩

lemma updateGenerator_resync {α : Type} (st : Mgr α)
    (h : (uidsM ((updateGenerator st).2)).all v4Match = true) :
    ((updateGenerator st).2).generated = uidsM ((updateGenerator st).2) := by
  have hm : uidsM ((updateGenerator st).2) = uidsM st := rfl
  rw [hm] at h ⊢
  have hall : ∀ a ∈ uidsM st, v4Match a = true := by
    intro a ha
    exact List.all_eq_true.mp h a ha
  have hfe : (uidsM st).filter v4Match = uidsM st := List.filter_eq_self.mpr hall
  simp [updateGenerator, setExisting, validator, hfe]

/-- C3 (amended): the resynchronizing operations are `reset`, successful
`deleteEntryForUID`, successful `deleteEntryForKey` and successful
`setEntries` — each passes the full current value list to the generator's
`setExisting`, so whenever the resulting values are all valid v4
identifiers (always the case for `reset`) the seen-set equals exactly the
map's current value list afterwards. `generateUIDFor` does not
resynchronize (see the counterexample). -/
theorem c3_resync_after_structural_ops :
    (∀ st : Mgr Nat, (reset st).generated = uidsM (reset st)) ∧
    (∀ (st : Mgr Nat) (u : String) (s : Mgr Nat),
      deleteEntryForUID st u = (true, s) →
      (uidsM s).all v4Match = true → s.generated = uidsM s) ∧
    (∀ (st : Mgr Nat) (t : Nat) (s : Mgr Nat),
      deleteEntryForKey st t = (true, s) →
      (uidsM s).all v4Match = true → s.generated = uidsM s) ∧
    (∀ (st : Mgr Nat) (l : List (Nat × String)) (c : List RandVals)
      (r : SEReport Nat) (s : Mgr Nat),
      setEntries st l c = some (some r, s) →
      (uidsM s).all v4Match = true → s.generated = uidsM s) := by
  refine ⟨fun st => rfl, ?_, ?_, ?_⟩
  · intro st u s hd hv
    unfold deleteEntryForUID at hd
    cases hfind : st.map.find? (fun p => p.2 = u) with
    | none => rw [hfind] at hd; exact absurd hd (by simp)
    | some p =>
      rw [hfind] at hd
      injection hd with h1 h2
      subst h2
      exact updateGenerator_resync _ hv
  · intro st t s hd hv
    unfold deleteEntryForKey at hd
    by_cases hh : mapHas st.map t = true
    · rw [if_pos hh] at hd
      injection hd with h1 h2
      subst h2
      exact updateGenerator_resync _ hv
    · rw [if_neg hh] at hd
      exact absurd hd (by simp)
  · intro st l c r s hse hv
    simp only [setEntries, setEntriesDyn] at hse
    cases hl : seLoop ⟨[], st.generated⟩ [] [] c (l.map some) with
    | none => rw [hl] at hse; exact absurd hse (by simp)
    | some out =>
      rw [hl] at hse
      cases out with
      | thrown st1 => simp at hse
      | done st1 ch inv cd =>
        simp only [Option.some.injEq, Prod.mk.injEq] at hse
        obtain ⟨hr, hs⟩ := hse
        subst hs
        exact updateGenerator_resync _ hv

theorem c3_resync_witness :
    deleteEntryForKey
        (⟨[(0, "00000000-0000-4000-8000-000000000000"),
           (1, "01000000-0000-4000-8000-000000000000")],
          ["00000000-0000-4000-8000-000000000000",
           "01000000-0000-4000-8000-000000000000"]⟩ : Mgr Nat) 0 =
      (true, ⟨[(1, "01000000-0000-4000-8000-000000000000")],
              ["01000000-0000-4000-8000-000000000000"]⟩) ∧
    (⟨[(1, "01000000-0000-4000-8000-000000000000")],
      ["01000000-0000-4000-8000-000000000000"]⟩ : Mgr Nat).generated =
      uidsM (⟨[(1, "01000000-0000-4000-8000-000000000000")],
              ["01000000-0000-4000-8000-000000000000"]⟩ : Mgr Nat) :=
  ⟨by decide,
   c3_resync_after_structural_ops.2.2.1
     (⟨[(0, "00000000-0000-4000-8000-000000000000"),
        (1, "01000000-0000-4000-8000-000000000000")],
       ["00000000-0000-4000-8000-000000000000",
        "01000000-0000-4000-8000-000000000000"]⟩ : Mgr Nat) 0
     (⟨[(1, "01000000-0000-4000-8000-000000000000")],
       ["01000000-0000-4000-8000-000000000000"]⟩ : Mgr Nat)
     (by decide) (by decide)⟩

lemma mapDelete_has_self {α : Type} [DecidableEq α] (m : List (α × String)) (k : α) :
    mapHas (mapDelete m k) k = false := by
  rw [Bool.eq_false_iff]
  intro hcon
  rw [mapHas, List.any_eq_true] at hcon
  obtain ⟨p, hp, hpk⟩ := hcon
  rw [mapDelete, List.mem_filter] at hp
  have h1 : ¬ p.1 = k := by simpa using hp.2
  exact h1 (by simpa using hpk)

lemma mapSet_absent {α : Type} [DecidableEq α] (m : List (α × String)) (k : α)
    (v : String) (h : mapHas m k = false) : mapSet m k v = m ++ [(k, v)] := by
  rw [mapSet, if_neg (by rw [h]; exact Bool.false_ne_true)]

/-- C8 counterexample: a reachable state in which `generateUIDFor` on an
already-associated entity re-issues the very same identifier. The state is
reached by `setEntries([[10, "x"], [20, zeroUid]])` from a fresh manager:
`"x"` is inserted despite being invalid (the dead-validation bug), so the
final resynchronization fails and the generator's seen-set stays empty.
`generateUIDFor(20)` with the all-zero draw then returns the zero
identifier again: the "new" identifier equals the old one, and the old
identifier still resolves via `getKeyFor`. -/
theorem c8_counterexample :
    setEntries (freshMgr : Mgr Nat)
        [(10, "x"), (20, "00000000-0000-4000-8000-000000000000")] [] =
      some (some ⟨[], []⟩,
            ⟨[(10, "x"), (20, "00000000-0000-4000-8000-000000000000")], []⟩) ∧
    getUIDFor (⟨[(10, "x"), (20, "00000000-0000-4000-8000-000000000000")], []⟩ : Mgr Nat)
        20 = some "00000000-0000-4000-8000-000000000000" ∧
    generateUIDFor
        (⟨[(10, "x"), (20, "00000000-0000-4000-8000-000000000000")], []⟩ : Mgr Nat)
        20 [⟨0, 0, 0, 0⟩] =
      some ("00000000-0000-4000-8000-000000000000",
            ⟨[(10, "x"), (20, "00000000-0000-4000-8000-000000000000")],
             ["00000000-0000-4000-8000-000000000000"]⟩, []) ∧
    getKeyFor
        (⟨[(10, "x"), (20, "00000000-0000-4000-8000-000000000000")],
          ["00000000-0000-4000-8000-000000000000"]⟩ : Mgr Nat)
        "00000000-0000-4000-8000-000000000000" = some 20 :=
  ⟨by decide, by decide, by decide, by decide⟩

/-- C8 (amended): `generateUIDFor` on an entity `e` that already has an
association `u0` always leaves `hasUIDFor e` true and `getUIDFor e` equal
to the new identifier; provided the old identifier is recorded in the
generator's seen-set and no other entry carries it (both hold whenever the
last resynchronization succeeded and the map's values are distinct), the
new identifier differs from the old one and the old identifier no longer
resolves via `getKeyFor`. -/
theorem c8_generateUIDFor_overwrites (st : Mgr Nat) (e : Nat) (u0 : String)
    (c : List RandVals) (u1 : String) (s : Mgr Nat) (c' : List RandVals)
    (hassoc : getUIDFor st e = some u0)
    (hseen : u0 ∈ st.generated)
    (honce : ∀ p ∈ st.map, p.2 = u0 → p.1 = e)
    (hgen : generateUIDFor st e c = some (u1, s, c')) :
    hasUIDFor s e = true ∧ getUIDFor s e = some u1 ∧ u1 ≠ u0 ∧
    getKeyFor s u0 = none := by
  unfold generateUIDFor at hgen
  cases hg : generate st.generated c with
  | none => rw [hg] at hgen; exact absurd hgen (by simp)
  | some rr =>
    obtain ⟨u, g1, crest⟩ := rr
    rw [hg] at hgen
    simp only [Option.some.injEq, Prod.mk.injEq] at hgen
    obtain ⟨rfl, rfl, rfl⟩ := hgen
    obtain ⟨hfresh, -, -⟩ := generate_spec hg
    have hne : u ≠ u0 := fun hEq => hfresh (hEq ▸ hseen)
    cases hfq : st.map.find? (fun p => p.1 = e) with
    | none => rw [getUIDFor, hfq] at hassoc; simp at hassoc
    | some q =>
      have hqmem := List.mem_of_find?_eq_some hfq
      have hqkey : q.1 = e := by
        have := List.find?_some hfq
        simpa using this
      have hhase : mapHas st.map e = true := by
        rw [mapHas, List.any_eq_true]
        exact ⟨q, hqmem, by simp [hqkey]⟩
      rw [if_pos hhase]
      have hdel := mapDelete_has_self st.map e
      rw [mapSet_absent _ _ _ hdel]
      have hfindnone : (mapDelete st.map e).find? (fun p => p.1 = e) = none := by
        rw [List.find?_eq_none]
        intro x hx
        rw [mapDelete, List.mem_filter] at hx
        simpa using hx.2
      have hnone2 : (mapDelete st.map e).find? (fun p => p.2 = u0) = none := by
        rw [List.find?_eq_none]
        intro x hx
        rw [mapDelete, List.mem_filter] at hx
        intro hcon
        have hx2 : x.2 = u0 := by simpa using hcon
        have hk := honce x hx.1 hx2
        exact (by simpa using hx.2 : ¬ x.1 = e) hk
      refine ⟨?_, ?_, hne, ?_⟩
      · rw [hasUIDFor, mapHas, List.any_append]
        simp [mapHas]
      · rw [getUIDFor, List.find?_append, hfindnone]
        simp [List.find?]
      · rw [getKeyFor, List.find?_append, hnone2]
        simp [List.find?, hne]

theorem c8_generateUIDFor_overwrites_witness :
    hasUIDFor (⟨[(5, "01000000-0000-4000-8000-000000000000")],
                ["00000000-0000-4000-8000-000000000000",
                 "01000000-0000-4000-8000-000000000000"]⟩ : Mgr Nat) 5 = true ∧
    getUIDFor (⟨[(5, "01000000-0000-4000-8000-000000000000")],
                ["00000000-0000-4000-8000-000000000000",
                 "01000000-0000-4000-8000-000000000000"]⟩ : Mgr Nat) 5 =
      some "01000000-0000-4000-8000-000000000000" ∧
    "01000000-0000-4000-8000-000000000000" ≠
      "00000000-0000-4000-8000-000000000000" ∧
    getKeyFor (⟨[(5, "01000000-0000-4000-8000-000000000000")],
                ["00000000-0000-4000-8000-000000000000",
                 "01000000-0000-4000-8000-000000000000"]⟩ : Mgr Nat)
        "00000000-0000-4000-8000-000000000000" = none :=
  c8_generateUIDFor_overwrites
    (⟨[(5, "00000000-0000-4000-8000-000000000000")],
      ["00000000-0000-4000-8000-000000000000"]⟩ : Mgr Nat) 5
    "00000000-0000-4000-8000-000000000000"
    [⟨0, 0, 0, 0⟩, ⟨1, 0, 0, 0⟩]
    "01000000-0000-4000-8000-000000000000"
    (⟨[(5, "01000000-0000-4000-8000-000000000000")],
      ["00000000-0000-4000-8000-000000000000",
       "01000000-0000-4000-8000-000000000000"]⟩ : Mgr Nat) []
    (by decide) (by decide) (by decide) (by decide)

lemma seLoop_done_no_fault {α : Type} [DecidableEq α] {st : Mgr α}
    {ch inv : List (α × String)} {cands : List RandVals}
    {l : List (Option (α × String))} {st1 : Mgr α} {c1 i1 : List (α × String)}
    {cd1 : List RandVals}
    (h : seLoop st ch inv cands l = some (SEOut.done st1 c1 i1 cd1)) :
    none ∉ l := by
  induction l generalizing st ch inv cands with
  | nil => simp
  | cons a rest ih =>
    cases a with
    | none => simp [seLoop] at h
    | some pr =>
      obtain ⟨k, uid⟩ := pr
      simp only [seLoop] at h
      intro hmem
      rcases List.mem_cons.mp hmem with heq | hmem2
      · exact Option.noConfusion heq
      · rw [if_pos (show jsTruthy (validator (Sum.inl uid)) = true from rfl)] at h
        by_cases hex : (uidsM st).contains uid = true
        · rw [if_pos hex] at h
          cases hgen : generateUIDFor st k cands with
          | none => rw [hgen] at h; exact absurd h (by simp)
          | some r =>
            obtain ⟨nu, s1, cc⟩ := r
            rw [hgen] at h
            exact (ih h) hmem2
        · rw [if_neg hex] at h
          exact (ih h) hmem2

/-- C9: `setEntries` never lets a fault escape: a non-array input returns
the `false` sentinel with the state untouched, and whenever the input array
contains an entry whose destructuring raises, any result the operation
returns is the `false` sentinel, never a success report — the exception is
caught at the operation boundary. -/
theorem c9_setEntries_fault_sentinel :
    (∀ (st : Mgr Nat) (c : List RandVals),
      setEntriesDyn st JsEntries.notArray c = some (none, st)) ∧
    (∀ (st : Mgr Nat) (l : List (Option (Nat × String))) (c : List RandVals)
      (r : Option (SEReport Nat)) (s : Mgr Nat),
      none ∈ l → setEntriesDyn st (JsEntries.arr l) c = some (r, s) → r = none) := by
  refine ⟨fun st c => rfl, ?_⟩
  intro st l c r s hmem hse
  simp only [setEntriesDyn] at hse
  cases hl : seLoop ⟨[], st.generated⟩ [] [] c l with
  | none => rw [hl] at hse; exact absurd hse (by simp)
  | some out =>
    rw [hl] at hse
    cases out with
    | thrown st1 =>
      simp only [Option.some.injEq, Prod.mk.injEq] at hse
      exact hse.1.symm
    | done st1 ch inv cd => exact absurd hmem (seLoop_done_no_fault hl)

theorem c9_setEntries_fault_sentinel_witness :
    (none : Option (Nat × String)) ∈ [(none : Option (Nat × String))] ∧
    setEntriesDyn (freshMgr : Mgr Nat) (JsEntries.arr [none]) [] =
      some (none, (⟨[], []⟩ : Mgr Nat)) ∧
    (none : Option (SEReport Nat)) = none :=
  ⟨by simp, by decide,
   c9_setEntries_fault_sentinel.2 freshMgr [none] [] none ⟨[], []⟩
     (by simp) (by decide)⟩

lemma find?_value_isSome (st : Mgr Nat) (u : String) :
    (st.map.find? (fun p => p.2 = u)).isSome = decide (u ∈ uidsM st) := by
  cases hf : st.map.find? (fun p => p.2 = u) with
  | none =>
    rw [List.find?_eq_none] at hf
    have hnm : ¬ u ∈ uidsM st := by
      intro hmem
      obtain ⟨p, hp, hp2⟩ := List.mem_map.mp hmem
      exact (hf p hp) (by simp [hp2])
    simp [hnm]
  | some p =>
    have hp2 : p.2 = u := by
      have := List.find?_some hf
      simpa using this
    have hmem : u ∈ uidsM st :=
      List.mem_map.mpr ⟨p, List.mem_of_find?_eq_some hf, hp2⟩
    simp [hmem]

/-- C10: `hasKeyFor`, `getKeyFor` and `deleteEntryForUID` compare the query
string against stored values by exact, case-sensitive equality; since
validation is case-insensitive, an identifier stored in uppercase (via
`setEntries`) is reported absent when queried in lowercase, and vice
versa. -/
theorem c10_exact_case_sensitive_lookup :
    (∀ (st : Mgr Nat) (u : String), hasKeyFor st u = decide (u ∈ uidsM st)) ∧
    (∀ (st : Mgr Nat) (u : String),
      (getKeyFor st u).isSome = decide (u ∈ uidsM st)) ∧
    (∀ (st : Mgr Nat) (u : String),
      (deleteEntryForUID st u).1 = decide (u ∈ uidsM st)) ∧
    (setEntries (freshMgr : Mgr Nat)
        [(0, "AA97B177-9383-4934-8543-0F91A7A02836")] [] =
      some (some ⟨[], []⟩,
            ⟨[(0, "AA97B177-9383-4934-8543-0F91A7A02836")],
             ["AA97B177-9383-4934-8543-0F91A7A02836"]⟩) ∧
     hasKeyFor (⟨[(0, "AA97B177-9383-4934-8543-0F91A7A02836")],
                 ["AA97B177-9383-4934-8543-0F91A7A02836"]⟩ : Mgr Nat)
        "AA97B177-9383-4934-8543-0F91A7A02836" = true ∧
     hasKeyFor (⟨[(0, "AA97B177-9383-4934-8543-0F91A7A02836")],
                 ["AA97B177-9383-4934-8543-0F91A7A02836"]⟩ : Mgr Nat)
        "aa97b177-9383-4934-8543-0f91a7a02836" = false ∧
     getKeyFor (⟨[(0, "AA97B177-9383-4934-8543-0F91A7A02836")],
                 ["AA97B177-9383-4934-8543-0F91A7A02836"]⟩ : Mgr Nat)
        "aa97b177-9383-4934-8543-0f91a7a02836" = none ∧
     deleteEntryForUID (⟨[(0, "AA97B177-9383-4934-8543-0F91A7A02836")],
                         ["AA97B177-9383-4934-8543-0F91A7A02836"]⟩ : Mgr Nat)
        "aa97b177-9383-4934-8543-0f91a7a02836" =
       (false, ⟨[(0, "AA97B177-9383-4934-8543-0F91A7A02836")],
                ["AA97B177-9383-4934-8543-0F91A7A02836"]⟩)) ∧
    (setEntries (freshMgr : Mgr Nat)
        [(0, "aa97b177-9383-4934-8543-0f91a7a02836")] [] =
      some (some ⟨[], []⟩,
            ⟨[(0, "aa97b177-9383-4934-8543-0f91a7a02836")],
             ["aa97b177-9383-4934-8543-0f91a7a02836"]⟩) ∧
     hasKeyFor (⟨[(0, "aa97b177-9383-4934-8543-0f91a7a02836")],
                 ["aa97b177-9383-4934-8543-0f91a7a02836"]⟩ : Mgr Nat)
        "AA97B177-9383-4934-8543-0F91A7A02836" = false ∧
     getKeyFor (⟨[(0, "aa97b177-9383-4934-8543-0f91a7a02836")],
                 ["aa97b177-9383-4934-8543-0f91a7a02836"]⟩ : Mgr Nat)
        "AA97B177-9383-4934-8543-0F91A7A02836" = none ∧
     deleteEntryForUID (⟨[(0, "aa97b177-9383-4934-8543-0f91a7a02836")],
                         ["aa97b177-9383-4934-8543-0f91a7a02836"]⟩ : Mgr Nat)
        "AA97B177-9383-4934-8543-0F91A7A02836" =
       (false, ⟨[(0, "aa97b177-9383-4934-8543-0f91a7a02836")],
                ["aa97b177-9383-4934-8543-0f91a7a02836"]⟩)) := by
  refine ⟨?_, ?_, ?_, ⟨by decide, by decide, by decide, by decide, by decide⟩,
    ⟨by decide, by decide, by decide, by decide⟩⟩
  · intro st u
    by_cases h : u ∈ uidsM st
    · have ht : hasKeyFor st u = true := by
        rw [hasKeyFor, List.any_eq_true]
        exact ⟨u, h, by simp⟩
      simp [ht, h]
    · have ht : hasKeyFor st u = false := by
        rw [Bool.eq_false_iff]
        intro hcon
        rw [hasKeyFor, List.any_eq_true] at hcon
        obtain ⟨v, hv, hvu⟩ := hcon
        have hveq : v = u := by simpa using hvu
        exact h (hveq ▸ hv)
      simp [ht, h]
  · intro st u
    have h := find?_value_isSome st u
    rw [getKeyFor]
    cases hf : st.map.find? (fun p => p.2 = u) with
    | none => rw [hf] at h; simpa using h
    | some p => rw [hf] at h; simpa using h
  · intro st u
    have h := find?_value_isSome st u
    simp only [deleteEntryForUID]
    cases hf : st.map.find? (fun p => p.2 = u) with
    | none =>
      rw [hf] at h
      simp only [Option.isSome_none] at h
      simp [h.symm]
    | some p =>
      rw [hf] at h
      simp only [Option.isSome_some] at h
      simp [h.symm]
